import Mathlib

/-!
Shallow embedding of `binance_api.py` (mambatrade_v2): a thin facade over an
exchange-connectivity client and two public HTTP endpoints.  External effects
are modelled explicitly: the client is a record of behaviours returning
`Except Exc α` (an `.error` value models a raised Python exception), HTTP
endpoints are functions returning an `HttpResult`, and the numeric coercion
performed by the pandas library (`astype(float)` / `pd.to_numeric` with
`errors='coerce'`) is a parameter `parse : String → Option Rat` where `none`
models a coercion failure (NaN / raised `ValueError`).  Every Lean function
is total, which reflects the module-wide policy of catching all exceptions
at each function boundary and returning a sentinel.
-/

namespace BinanceApi

/-- Exceptions that the underlying library or HTTP layer can raise, with the
taxonomy the module distinguishes: `ccxt.AuthenticationError`,
`requests.exceptions.RequestException`, and any other `Exception`. -/
inductive Exc where
  | authenticationError (m : String)
  | requestException (m : String)
  | otherError (m : String)
deriving DecidableEq

/-- The string rendering of an exception, as interpolated into f-strings. -/
def Exc.msg : Exc → String
  | .authenticationError m => m
  | .requestException m => m
  | .otherError m => m

/-- Python truthiness of an optional string (`not api_key`): `None` and the
empty string are falsy. -/
def truthyStr : Option String → Bool
  | none => false
  | some s => s ≠ ""

/-- Python truthiness of an optional number (`if take_profit_price:`,
`position.get('contracts')`): `None` and `0` are falsy. -/
def truthyNum : Option Rat → Bool
  | none => false
  | some x => x ≠ 0

/-- An order descriptor returned by the library; the module never inspects
its fields, so it is opaque. -/
structure Order where
  id : Nat
deriving DecidableEq

/-- A position descriptor; the module reads only the `contracts` field
(`position.get('contracts')` may be absent, hence `Option`). -/
structure Position where
  symbol : String
  contracts : Option Rat
deriving DecidableEq

/-- The result of `fetch_balance`: the `'total'` sub-dictionary, modelled as
an association list from asset name to amount. -/
structure Balance where
  total : List (String × Rat)
deriving DecidableEq

/-- Parameters passed to the generic `create_order` call for protective
orders: `{'stopPrice': …, 'reduceOnly': True}`. -/
structure OrderParams where
  stopPrice : Rat
  reduceOnly : Bool
deriving DecidableEq

/-- A ccxt client handle, modelled by the behaviours of the four methods the
module calls.  An `.error e` result models the method raising `e`. -/
structure Client where
  fetch_balance : Except Exc Balance
  create_market_order : String → String → Rat → Except Exc Order
  create_order : String → String → String → Rat → Option Rat → OrderParams → Except Exc Order
  fetch_positions : List String → Except Exc (List Position)

/-- Outcome of a `requests.get` + `raise_for_status` + `response.json()`
round trip: a raised `RequestException`, a processing failure (e.g. the body
is not valid JSON), or a decoded body. -/
inductive HttpResult (α : Type) where
  | requestException (m : String)
  | processError (m : String)
  | ok (body : α)

/-- One raw kline row from the public endpoint: twelve columns, the five
price/volume columns arriving as strings (Binance sends them as strings). -/
structure Kline where
  timestamp : Int
  openP : String
  high : String
  low : String
  close : String
  volume : String
  close_time : Int
  quote_asset_volume : String
  number_of_trades : Int
  taker_buy_base_asset_volume : String
  taker_buy_quote_asset_volume : String
  ignoreCol : String
deriving DecidableEq

/-- A row of the table returned by `get_historical_data` after column
selection and `astype(float)`. -/
structure Candle where
  timestamp : Int
  openP : Rat
  high : Rat
  low : Rat
  close : Rat
  volume : Rat
deriving DecidableEq

/-- One raw ticker entry from the 24h endpoint, restricted to the four
columns the module selects. -/
structure Ticker where
  symbol : String
  priceChangePercent : String
  lastPrice : String
  quoteVolume : String
deriving DecidableEq

/-- A row of the table returned by `get_24h_ticker` after renaming, numeric
coercion and `dropna()`. -/
structure TickerOut where
  sembol : String
  degisim : Rat
  sonFiyat : Rat
  hacim : Rat
deriving DecidableEq

/-- `get_binance_client`: returns `None` when either key is falsy, otherwise
builds the ccxt client, converting a construction exception to `None`.
`ctor` models `ccxt.binance({...})` for the given credentials. -/
def get_binance_client (ctor : Option String → Option String → Except Exc Client)
    (api_key secret_key : Option String) : Option Client :=
  if ¬ truthyStr api_key ∨ ¬ truthyStr secret_key then none
  else
    match ctor api_key secret_key with
    | .ok exchange => some exchange
    | .error _ => none

/-- `test_api_connection`: builds a client and attempts a balance fetch,
reporting a (Bool, message) pair with three message families. -/
def test_api_connection (ctor : Option String → Option String → Except Exc Client)
    (api_key secret_key : Option String) : Bool × String :=
  match get_binance_client ctor api_key secret_key with
  | none => (false, "API anahtarları ile istemci oluşturulamadı.")
  | some client =>
    match client.fetch_balance with
    | .ok _ => (true, "API bağlantısı başarılı.")
    | .error (.authenticationError m) => (false, "Kimlik doğrulama hatası: " ++ m)
    | .error e => (false, "Bir hata oluştu: " ++ e.msg)

/-- `get_futures_balance`: `balance['total'].get('USDT', 0)` on success,
`None` on a falsy client or any exception. -/
def get_futures_balance (client : Option Client) : Option Rat :=
  match client with
  | none => none
  | some c =>
    match c.fetch_balance with
    | .ok balance => some ((balance.total.lookup "USDT").getD 0)
    | .error _ => none

/-- `symbol.replace('/', '')`: remove every slash. -/
def formatSymbol (symbol : String) : String :=
  String.mk (symbol.data.filter (fun ch => ch ≠ '/'))

/-- Python `s.endswith(suffix)`, on the character level. -/
def strEndsWith (s suffix : String) : Bool :=
  suffix.data.isSuffixOf s.data

/-- Python `s[:-n]`: all characters but the last `n`. -/
def strDropRight (s : String) (n : Nat) : String :=
  String.mk (s.data.take (s.data.length - n))

/-- Python `s[-n:]`: the last `n` characters. -/
def strTakeRight (s : String) (n : Nat) : String :=
  String.mk (s.data.drop (s.data.length - n))

/-- Conversion of one kline row: select the five price/volume columns and
coerce each to float; `none` models `astype(float)` raising. -/
def candleOfKline (parse : String → Option Rat) (k : Kline) : Option Candle :=
  match parse k.openP, parse k.high, parse k.low, parse k.close, parse k.volume with
  | some o, some h, some l, some c, some v => some ⟨k.timestamp, o, h, l, c, v⟩
  | _, _, _, _, _ => none

/-- All-or-nothing conversion of the kline rows, mirroring `astype(float)`
on the whole frame: any failing row fails the whole conversion. -/
def candlesOf (parse : String → Option Rat) : List Kline → Option (List Candle)
  | [] => some []
  | k :: ks =>
    match candleOfKline parse k, candlesOf parse ks with
    | some c, some cs => some (c :: cs)
    | _, _ => none

/-- `get_historical_data`: formats the symbol, queries the public klines
endpoint, returns an empty table on an empty body, the converted table on
success, and `None` on a request or processing failure.  The `client`
argument is accepted but never used. -/
def get_historical_data (endpoint : String → String → Nat → HttpResult (List Kline))
    (parse : String → Option Rat) (client : Option Client)
    (symbol : String) (timeframe : String) (limit : Nat) : Option (List Candle) :=
  let formatted_symbol := formatSymbol symbol
  match endpoint formatted_symbol timeframe limit with
  | .requestException _ => none
  | .processError _ => none
  | .ok data =>
    if data.isEmpty then some []
    else
      match candlesOf parse data with
      | some df => some df
      | none => none

/-- `create_market_order`: places the primary market order; on success it
attempts the optional protective orders, swallowing (printing only) any
exception they raise, and returns the primary order with a success message.
A primary-order exception yields `(None, error message)`. -/
def create_market_order (client : Option Client) (symbol side : String) (amount : Rat)
    (take_profit_price stop_loss_price : Option Rat) : Option Order × String :=
  match client with
  | none => (none, "Geçersiz istemci.")
  | some c =>
    match c.create_market_order symbol side amount with
    | .error e => (none, "Emir oluşturulurken hata: " ++ e.msg)
    | .ok order =>
      let opposite_side := if side = "buy" then "sell" else "buy"
      let _tp_attempt :=
        if truthyNum take_profit_price then
          some (c.create_order symbol "TAKE_PROFIT_MARKET" opposite_side amount none
            ⟨take_profit_price.getD 0, true⟩)
        else none
      let _sl_attempt :=
        if truthyNum stop_loss_price then
          some (c.create_order symbol "STOP_MARKET" opposite_side amount none
            ⟨stop_loss_price.getD 0, true⟩)
        else none
      (some order, "Emir başarıyla oluşturuldu.")

/-- `BTCUSDT -> BTC/USDT`: the per-symbol lambda applied to the `Sembol`
column, inserting a slash before the trailing four characters. -/
def formatSembol (s : String) : String :=
  if strEndsWith s "USDT" then strDropRight s 4 ++ "/" ++ strTakeRight s 4 else s

/-- `get_24h_ticker`: queries the public 24h endpoint, keeps the symbols
ending in `USDT`, coerces the three numeric columns (`errors='coerce'`),
rewrites the symbol, and drops any row with a coercion failure (`dropna`).
Returns an empty table when no symbol matches, `None` on failure. -/
def get_24h_ticker (parse : String → Option Rat)
    (resp : HttpResult (List Ticker)) : Option (List TickerOut) :=
  match resp with
  | .requestException _ => none
  | .processError _ => none
  | .ok data =>
    let usdt_tickers := data.filter (fun t => strEndsWith t.symbol "USDT")
    if usdt_tickers.isEmpty then some []
    else
      some (usdt_tickers.filterMap (fun t =>
        match parse t.priceChangePercent, parse t.lastPrice, parse t.quoteVolume with
        | some d, some p, some v => some ⟨formatSembol t.symbol, d, p, v⟩
        | _, _, _ => none))

/-- `get_position`: fetches the positions for the symbol and returns the
first descriptor only when its contract count is present and nonzero;
otherwise `None`, including on a falsy client or any exception. -/
def get_position (client : Option Client) (symbol : String) : Option Position :=
  match client with
  | none => none
  | some c =>
    match c.fetch_positions [symbol] with
    | .error _ => none
    | .ok positions =>
      match positions with
      | [] => none
      | position :: _ =>
        if truthyNum position.contracts ∧ position.contracts ≠ some 0 then some position
        else none

/-- A concrete client whose primary-order call succeeds and whose generic
`create_order` (used for protective orders) always raises. -/
def demoClient : Client where
  fetch_balance := Except.ok ⟨[("USDT", 100)]⟩
  create_market_order := fun _ _ _ => Except.ok ⟨1⟩
  create_order := fun _ _ _ _ _ _ => Except.error (Exc.otherError "boom")
  fetch_positions := fun _ => Except.ok []

/-- A client on which every method raises the exception `e`. -/
def failingClient (e : Exc) : Client where
  fetch_balance := Except.error e
  create_market_order := fun _ _ _ => Except.error e
  create_order := fun _ _ _ _ _ _ => Except.error e
  fetch_positions := fun _ => Except.error e

/-- A simple coercion instance for concrete inputs: only the string "1"
coerces (to 1); anything else fails, as `pd.to_numeric(…, errors='coerce')`
fails on non-numeric text. -/
def oneParse (s : String) : Option Rat := if s = "1" then some 1 else none

/-- Claim C1: whenever the primary market-order call succeeds,
`create_market_order` returns that order with the success message, for every
take-profit/stop-loss argument and every behaviour of the client's generic
`create_order` method (protective-order exceptions are swallowed and cannot
change the returned pair). -/
theorem create_market_order_swallows_protective_failures
    (c : Client) (symbol side : String) (amount : Rat)
    (tp sl : Option Rat) (o : Order)
    (h : c.create_market_order symbol side amount = Except.ok o) :
    create_market_order (some c) symbol side amount tp sl
      = (some o, "Emir başarıyla oluşturuldu.") := by
  simp [create_market_order, h]

/-- Claim C1 witness: a client whose protective-order call raises still
yields the primary order and the success message. -/
theorem create_market_order_swallows_protective_failures_witness :
    demoClient.create_market_order "BTC/USDT" "buy" 1 = Except.ok ⟨1⟩ ∧
    create_market_order (some demoClient) "BTC/USDT" "buy" 1 (some 2) (some 3)
      = (some ⟨1⟩, "Emir başarıyla oluşturuldu.") :=
  ⟨rfl, create_market_order_swallows_protective_failures demoClient
    "BTC/USDT" "buy" 1 (some 2) (some 3) ⟨1⟩ rfl⟩

/-- Claim C2: every function of the module is total (each Lean model is a
total function), and any exception raised by the underlying client or HTTP
call is converted at the function boundary into the sentinel the module
documents: `none`, `false`, or a `(none, message)` pair — never propagated. -/
theorem no_exception_propagation (e : Exc) (m : String) (parse : String → Option Rat)
    (k s : Option String) (cl : Option Client) (symbol side timeframe : String)
    (amount : Rat) (limit : Nat) (tp sl : Option Rat) :
    get_binance_client (fun _ _ => Except.error e) k s = none ∧
    (test_api_connection (fun _ _ => Except.ok (failingClient e)) k s).1 = false ∧
    get_futures_balance (some (failingClient e)) = none ∧
    get_historical_data (fun _ _ _ => HttpResult.requestException m) parse cl
      symbol timeframe limit = none ∧
    get_historical_data (fun _ _ _ => HttpResult.processError m) parse cl
      symbol timeframe limit = none ∧
    create_market_order (some (failingClient e)) symbol side amount tp sl
      = (none, "Emir oluşturulurken hata: " ++ e.msg) ∧
    get_24h_ticker parse (HttpResult.requestException m) = none ∧
    get_24h_ticker parse (HttpResult.processError m) = none ∧
    get_position (some (failingClient e)) symbol = none := by
  refine ⟨?_, ?_, ?_, ?_, ?_, ?_, ?_, ?_, ?_⟩
  · simp [get_binance_client]
  · cases htk : truthyStr k <;> cases hts : truthyStr s <;> cases e <;>
      simp [test_api_connection, get_binance_client, failingClient, htk, hts, Exc.msg]
  · simp [get_futures_balance, failingClient]
  · simp [get_historical_data]
  · simp [get_historical_data]
  · simp [create_market_order, failingClient]
  · simp [get_24h_ticker]
  · simp [get_24h_ticker]
  · simp [get_position, failingClient]

/-- Claim C3: `get_binance_client` returns `None` when the API key or the
secret is missing (`None`) or empty, and also when client construction
raises. -/
theorem get_binance_client_missing_or_raise :
    (∀ ctor s, get_binance_client ctor none s = none) ∧
    (∀ ctor s, get_binance_client ctor (some "") s = none) ∧
    (∀ ctor k, get_binance_client ctor k none = none) ∧
    (∀ ctor k, get_binance_client ctor k (some "") = none) ∧
    (∀ (e : Exc) k s, get_binance_client (fun _ _ => Except.error e) k s = none) := by
  refine ⟨?_, ?_, ?_, ?_, ?_⟩ <;> intros <;> simp [get_binance_client, truthyStr]

/-- Claim C6: a successful balance fetch whose `total` map has no `USDT`
entry yields `0` (not `None`); a missing client or a raising fetch yields
`None`. -/
theorem get_futures_balance_spec :
    (∀ (total : List (String × Rat)) cmo co fp, total.lookup "USDT" = none →
       get_futures_balance (some ⟨Except.ok ⟨total⟩, cmo, co, fp⟩) = some 0) ∧
    get_futures_balance none = none ∧
    (∀ (e : Exc) cmo co fp,
       get_futures_balance (some ⟨Except.error e, cmo, co, fp⟩) = none) := by
  refine ⟨?_, rfl, ?_⟩
  · intro total cmo co fp h
    simp [get_futures_balance, h]
  · intro e cmo co fp
    simp [get_futures_balance]

/-- Claim C6 witness: a balance holding only BTC yields a `USDT` balance of
`0`. -/
theorem get_futures_balance_spec_witness :
    ([("BTC", (5 : Rat))].lookup "USDT" = none) ∧
    get_futures_balance (some ⟨Except.ok ⟨[("BTC", 5)]⟩,
      fun _ _ _ => Except.ok ⟨0⟩, fun _ _ _ _ _ _ => Except.ok ⟨0⟩,
      fun _ => Except.ok []⟩) = some 0 :=
  ⟨rfl, get_futures_balance_spec.1 [("BTC", 5)] _ _ _ rfl⟩

/-- Claim C9: `get_historical_data` never reads its `client` argument: with
the same endpoint behaviour, coercion behaviour and remaining arguments, any
two client values (including `none`) give equal results. -/
theorem get_historical_data_client_independent
    (endpoint : String → String → Nat → HttpResult (List Kline))
    (parse : String → Option Rat) (c₁ c₂ : Option Client)
    (symbol timeframe : String) (limit : Nat) :
    get_historical_data endpoint parse c₁ symbol timeframe limit
      = get_historical_data endpoint parse c₂ symbol timeframe limit := rfl

/-- An all-or-nothing conversion fails as soon as one row fails, wherever
that row sits in the list. -/
lemma candlesOf_eq_none_of_mem_fail (parse : String → Option Rat)
    (pre post : List Kline) (k : Kline) (h : candleOfKline parse k = none) :
    candlesOf parse (pre ++ k :: post) = none := by
  induction pre with
  | nil => simp [candlesOf, h]
  | cons p pre ih =>
    have ih2 : candlesOf parse (List.append pre (k :: post)) = none := ih
    simp only [List.cons_append, candlesOf, ih2]
    cases candleOfKline parse p <;> rfl

/-- Claim C4: `get_historical_data` returns an empty table (not `None`) on a
successful empty body, and `None` (never a partially filled table) on a
request failure, a processing failure, or when any row fails numeric
coercion. -/
theorem get_historical_data_spec :
    (∀ (parse : String → Option Rat) cl symbol timeframe limit,
       get_historical_data (fun _ _ _ => HttpResult.ok []) parse cl
         symbol timeframe limit = some []) ∧
    (∀ (m : String) parse cl symbol timeframe limit,
       get_historical_data (fun _ _ _ => HttpResult.requestException m) parse cl
         symbol timeframe limit = none) ∧
    (∀ (m : String) parse cl symbol timeframe limit,
       get_historical_data (fun _ _ _ => HttpResult.processError m) parse cl
         symbol timeframe limit = none) ∧
    (∀ (parse : String → Option Rat) (pre post : List Kline) (k : Kline)
       cl symbol timeframe limit, candleOfKline parse k = none →
       get_historical_data (fun _ _ _ => HttpResult.ok (pre ++ k :: post)) parse cl
         symbol timeframe limit = none) := by
  refine ⟨?_, ?_, ?_, ?_⟩
  · intros; simp [get_historical_data]
  · intros; simp [get_historical_data]
  · intros; simp [get_historical_data]
  · intro parse pre post k cl symbol timeframe limit h
    simp [get_historical_data, candlesOf_eq_none_of_mem_fail parse pre post k h]

/-- Claim C4 witness: a body with a single row whose fields all fail
coercion yields `None`. -/
theorem get_historical_data_spec_witness :
    candleOfKline (fun _ => none) ⟨0, "a", "b", "c", "d", "e", 0, "0", 0, "0", "0", "0"⟩ = none ∧
    get_historical_data
      (fun _ _ _ => HttpResult.ok [⟨0, "a", "b", "c", "d", "e", 0, "0", 0, "0", "0", "0"⟩])
      (fun _ => none) none "BTC/USDT" "1h" 100 = none :=
  ⟨rfl, get_historical_data_spec.2.2.2 (fun _ => none) [] []
    ⟨0, "a", "b", "c", "d", "e", 0, "0", 0, "0", "0", "0"⟩ none "BTC/USDT" "1h" 100 rfl⟩

/-- Claim C7: `get_position` returns a descriptor only when its contract
count is present and nonzero; a missing client, a raising fetch, an empty
position list, or a zero/missing contract count in the first descriptor all
yield `None`. -/
theorem get_position_spec :
    (∀ (c : Client) (symbol : String) (p : Position),
       get_position (some c) symbol = some p → truthyNum p.contracts = true) ∧
    (∀ symbol, get_position none symbol = none) ∧
    (∀ (e : Exc) fb cmo co symbol,
       get_position (some ⟨fb, cmo, co, fun _ => Except.error e⟩) symbol = none) ∧
    (∀ fb cmo co symbol,
       get_position (some ⟨fb, cmo, co, fun _ => Except.ok []⟩) symbol = none) ∧
    (∀ fb cmo co symbol (p : Position) (rest : List Position),
       p.contracts = none ∨ p.contracts = some 0 →
       get_position (some ⟨fb, cmo, co, fun _ => Except.ok (p :: rest)⟩) symbol = none) := by
  refine ⟨?_, ?_, ?_, ?_, ?_⟩
  · intro c symbol p h
    simp only [get_position] at h
    split at h
    · exact absurd h (by simp)
    · split at h
      · exact absurd h (by simp)
      · split at h
        · rename_i hc
          cases h
          exact hc.1
        · exact absurd h (by simp)
  · intro symbol; rfl
  · intro e fb cmo co symbol; simp [get_position]
  · intro fb cmo co symbol; simp [get_position]
  · intro fb cmo co symbol p rest hp
    rcases hp with hp | hp <;> simp [get_position, truthyNum, hp]

/-- Claim C7 witness: an upstream descriptor with zero contracts yields
`None`. -/
theorem get_position_spec_witness :
    ((⟨"BTCUSDT", some 0⟩ : Position).contracts = none ∨
      (⟨"BTCUSDT", some 0⟩ : Position).contracts = some 0) ∧
    get_position (some ⟨Except.ok ⟨[]⟩, fun _ _ _ => Except.ok ⟨0⟩,
      fun _ _ _ _ _ _ => Except.ok ⟨0⟩,
      fun _ => Except.ok [⟨"BTCUSDT", some 0⟩]⟩) "BTCUSDT" = none :=
  ⟨Or.inr rfl, get_position_spec.2.2.2.2 _ _ _ "BTCUSDT" ⟨"BTCUSDT", some 0⟩ []
    (Or.inr rfl)⟩

/-- Claim C10: `get_position` inspects only the first descriptor of the
fetched list: when the first descriptor's contract count is missing or zero,
the result is `None` even though a later descriptor has a nonzero count. -/
theorem get_position_first_descriptor_only
    (fb : Except Exc Balance) (cmo : String → String → Rat → Except Exc Order)
    (co : String → String → String → Rat → Option Rat → OrderParams → Except Exc Order)
    (symbol : String) (p q : Position) (rest : List Position) (x : Rat)
    (hp : p.contracts = none ∨ p.contracts = some 0)
    (hq : q.contracts = some x) (hx : x ≠ 0) :
    get_position (some ⟨fb, cmo, co, fun _ => Except.ok (p :: q :: rest)⟩) symbol
      = none := by
  rcases hp with hp | hp <;> simp [get_position, truthyNum, hp]

/-- Claim C10 witness: first descriptor has zero contracts, the second has
five, and the result is still `None`. -/
theorem get_position_first_descriptor_only_witness :
    get_position (some ⟨Except.ok ⟨[]⟩, fun _ _ _ => Except.ok ⟨0⟩,
      fun _ _ _ _ _ _ => Except.ok ⟨0⟩,
      fun _ => Except.ok [⟨"BTCUSDT", some 0⟩, ⟨"BTCUSDT", some 5⟩]⟩) "BTCUSDT"
      = none :=
  get_position_first_descriptor_only _ _ _ "BTCUSDT" ⟨"BTCUSDT", some 0⟩
    ⟨"BTCUSDT", some 5⟩ [] 5 (Or.inr rfl) rfl (by norm_num)

/-- Two strings whose first characters differ are distinct. -/
lemma string_ne_of_head (s t : String) (c₁ c₂ : Char)
    (h₁ : s.data.head? = some c₁) (h₂ : t.data.head? = some c₂) (hne : c₁ ≠ c₂) :
    s ≠ t := by
  intro h
  rw [h, h₂] at h₁
  exact hne (Option.some.inj h₁).symm

/-- Appending on the right keeps the first character. -/
lemma data_head_append (a m : String) (c : Char) (h : a.data.head? = some c) :
    (a ++ m).data.head? = some c := by
  rw [String.data_append]
  cases hd : a.data with
  | nil => rw [hd] at h; simp at h
  | cons x xs =>
    rw [hd] at h
    simp at h ⊢
    exact h

/-- Claim C8: `test_api_connection` returns a (Bool, message) pair: `true`
with the success message when the balance fetch succeeds; `false` with an
authentication-specific message on an authentication error; `false` with the
generic message on any other error; `false` with a third message when client
construction fails; and the four message families are pairwise distinct. -/
theorem test_api_connection_spec :
    (∀ (k s : String) (b : Balance) cmo co fp, k ≠ "" → s ≠ "" →
       test_api_connection (fun _ _ => Except.ok ⟨Except.ok b, cmo, co, fp⟩)
         (some k) (some s) = (true, "API bağlantısı başarılı.")) ∧
    (∀ (k s m : String) cmo co fp, k ≠ "" → s ≠ "" →
       test_api_connection
         (fun _ _ => Except.ok ⟨Except.error (Exc.authenticationError m), cmo, co, fp⟩)
         (some k) (some s) = (false, "Kimlik doğrulama hatası: " ++ m)) ∧
    (∀ (k s m : String) cmo co fp, k ≠ "" → s ≠ "" →
       test_api_connection
         (fun _ _ => Except.ok ⟨Except.error (Exc.otherError m), cmo, co, fp⟩)
         (some k) (some s) = (false, "Bir hata oluştu: " ++ m)) ∧
    (∀ (k s m : String) cmo co fp, k ≠ "" → s ≠ "" →
       test_api_connection
         (fun _ _ => Except.ok ⟨Except.error (Exc.requestException m), cmo, co, fp⟩)
         (some k) (some s) = (false, "Bir hata oluştu: " ++ m)) ∧
    (∀ (e : Exc) (k s : Option String),
       test_api_connection (fun _ _ => Except.error e) k s
         = (false, "API anahtarları ile istemci oluşturulamadı.")) ∧
    (∀ (m₁ m₂ : String),
       "Kimlik doğrulama hatası: " ++ m₁ ≠ "Bir hata oluştu: " ++ m₂ ∧
       "API anahtarları ile istemci oluşturulamadı." ≠ "Kimlik doğrulama hatası: " ++ m₁ ∧
       "API anahtarları ile istemci oluşturulamadı." ≠ "Bir hata oluştu: " ++ m₂ ∧
       "API bağlantısı başarılı." ≠ "Kimlik doğrulama hatası: " ++ m₁ ∧
       "API bağlantısı başarılı." ≠ "Bir hata oluştu: " ++ m₂ ∧
       "API bağlantısı başarılı." ≠ "API anahtarları ile istemci oluşturulamadı.") := by
  refine ⟨?_, ?_, ?_, ?_, ?_, ?_⟩
  · intro k s b cmo co fp hk hs
    simp [test_api_connection, get_binance_client, truthyStr, hk, hs]
  · intro k s m cmo co fp hk hs
    simp [test_api_connection, get_binance_client, truthyStr, hk, hs]
  · intro k s m cmo co fp hk hs
    simp [test_api_connection, get_binance_client, truthyStr, hk, hs, Exc.msg]
  · intro k s m cmo co fp hk hs
    simp [test_api_connection, get_binance_client, truthyStr, hk, hs, Exc.msg]
  · intro e k s
    cases htk : truthyStr k <;> cases hts : truthyStr s <;>
      simp [test_api_connection, get_binance_client, htk, hts]
  · intro m₁ m₂
    refine ⟨?_, ?_, ?_, ?_, ?_, ?_⟩
    · exact string_ne_of_head _ _ 'K' 'B'
        (data_head_append _ _ _ (by decide)) (data_head_append _ _ _ (by decide))
        (by decide)
    · exact string_ne_of_head _ _ 'A' 'K'
        (by decide) (data_head_append _ _ _ (by decide)) (by decide)
    · exact string_ne_of_head _ _ 'A' 'B'
        (by decide) (data_head_append _ _ _ (by decide)) (by decide)
    · exact string_ne_of_head _ _ 'A' 'K'
        (by decide) (data_head_append _ _ _ (by decide)) (by decide)
    · exact string_ne_of_head _ _ 'A' 'B'
        (by decide) (data_head_append _ _ _ (by decide)) (by decide)
    · decide

/-- Claim C8 witness: concrete nonempty credentials and a succeeding balance
fetch give `(true, success message)`. -/
theorem test_api_connection_spec_witness :
    ("k" ≠ "") ∧ ("s" ≠ "") ∧
    test_api_connection (fun _ _ => Except.ok ⟨Except.ok ⟨[]⟩,
      fun _ _ _ => Except.ok ⟨0⟩, fun _ _ _ _ _ _ => Except.ok ⟨0⟩,
      fun _ => Except.ok []⟩) (some "k") (some "s")
      = (true, "API bağlantısı başarılı.") :=
  ⟨by decide, by decide,
    test_api_connection_spec.1 "k" "s" ⟨[]⟩ _ _ _ (by decide) (by decide)⟩

/-- Characterisation of the per-ticker conversion used in `get_24h_ticker`. -/
lemma tickerRowOf_eq_some (parse : String → Option Rat) (t : Ticker) (r : TickerOut) :
    (match parse t.priceChangePercent, parse t.lastPrice, parse t.quoteVolume with
      | some d, some p, some v => some (TickerOut.mk (formatSembol t.symbol) d p v)
      | _, _, _ => none) = some r ↔
    (formatSembol t.symbol = r.sembol ∧ parse t.priceChangePercent = some r.degisim ∧
     parse t.lastPrice = some r.sonFiyat ∧ parse t.quoteVolume = some r.hacim) := by
  rcases r with ⟨se, de, so, ha⟩
  cases h1 : parse t.priceChangePercent <;> cases h2 : parse t.lastPrice <;>
    cases h3 : parse t.quoteVolume <;> simp [TickerOut.mk.injEq]

/-- Claim C5 counterexample: an upstream entry whose symbol ends in "USDT"
but whose numeric fields fail coercion is dropped (`dropna`), so the result
does not keep every entry ending in "USDT" as the claim states. -/
theorem get_24h_ticker_claim_counterexample :
    (strEndsWith "XUSDT" "USDT" = true) ∧
    get_24h_ticker oneParse (HttpResult.ok [⟨"XUSDT", "abc", "1", "1"⟩]) = some [] := by
  exact ⟨by decide, by decide⟩

/-- Claim C5 (amended): the returned table holds exactly the upstream
entries whose symbol ends in "USDT" and whose three numeric columns all
coerce successfully; each kept entry's symbol is rewritten by inserting "/"
before the trailing four characters, and no entry whose symbol does not end
in "USDT" ever appears. -/
theorem get_24h_ticker_filters_and_rewrites (parse : String → Option Rat)
    (data : List Ticker) :
    ∃ rows, get_24h_ticker parse (HttpResult.ok data) = some rows ∧
      ∀ r : TickerOut, r ∈ rows ↔
        ∃ t ∈ data, strEndsWith t.symbol "USDT" = true ∧
          formatSembol t.symbol = r.sembol ∧
          parse t.priceChangePercent = some r.degisim ∧
          parse t.lastPrice = some r.sonFiyat ∧
          parse t.quoteVolume = some r.hacim := by
  by_cases hE : (data.filter (fun t => strEndsWith t.symbol "USDT")).isEmpty
  · refine ⟨[], by simp [get_24h_ticker, hE], ?_⟩
    intro r
    simp only [List.not_mem_nil, false_iff]
    rintro ⟨t, ht, hu, -⟩
    have hmem : t ∈ data.filter (fun t => strEndsWith t.symbol "USDT") :=
      List.mem_filter.mpr ⟨ht, hu⟩
    rw [List.isEmpty_iff] at hE
    rw [hE] at hmem
    exact List.not_mem_nil t hmem
  · refine ⟨(data.filter (fun t => strEndsWith t.symbol "USDT")).filterMap
      (fun t =>
        match parse t.priceChangePercent, parse t.lastPrice, parse t.quoteVolume with
        | some d, some p, some v => some (TickerOut.mk (formatSembol t.symbol) d p v)
        | _, _, _ => none), by simp [get_24h_ticker, hE], ?_⟩
    intro r
    rw [List.mem_filterMap]
    constructor
    · rintro ⟨t, htl, hf⟩
      have hm := List.mem_filter.mp htl
      have hc := (tickerRowOf_eq_some parse t r).mp hf
      exact ⟨t, hm.1, hm.2, hc.1, hc.2.1, hc.2.2.1, hc.2.2.2⟩
    · rintro ⟨t, ht, hu, h1, h2, h3, h4⟩
      exact ⟨t, List.mem_filter.mpr ⟨ht, hu⟩,
        (tickerRowOf_eq_some parse t r).mpr ⟨h1, h2, h3, h4⟩⟩

end BinanceApi
